import Mathlib

/-!
Shallow embedding of the `IServTool` JavaScript client class (file `index.js`
of the dunklesToast/IServ repository) together with proofs about its
session-management and endpoint-dispatch behaviour.

Modelling conventions:
* JavaScript optional / possibly-`undefined` string arguments are `Option String`;
  `none` is `undefined`.  JS truthiness of such a value (`!x`) is `jsFalsy`.
* The HTTP transport behind the axios client is a function `Net` from a fully
  built request to a raw outcome (either an HTTP response or a network failure
  producing an error object without a `response` field).  The axios wrapper
  `axiosRequest` applies the configured `validateStatus` policy, resolving
  in-range responses and rejecting the rest, exactly as axios does for a client
  created with `maxRedirects: 0` and `validateStatus: s => s >= 200 && s < 303`.
* Each instance method returns the list of HTTP requests it issued (in order)
  together with an `Except JsError` result; a `.error` models a rejected
  promise / thrown exception.
* The cookie persistence file `./headers` is modelled as `Option String`
  (its textual content, or `none` when the file does not exist).
* Response bodies are opaque `String`s (axios has already decoded JSON /
  filled the arraybuffer; the class returns `resp.data` unchanged).
-/

namespace IServ

/-- JS truthiness test for an optional string value: `undefined` and the empty
string are falsy, every other string is truthy. -/
def jsFalsy : Option String → Bool
  | none => true
  | some s => s.isEmpty

/-- JS `x || ''` applied to an optional string: `undefined` (and `''` itself)
collapse to the empty string. -/
def jsOrEmpty : Option String → String
  | none => ""
  | some s => s

/-- An HTTP response as axios hands it to the code: status, the
`set-cookie` response header (absent when the server sent none) and the
decoded body. -/
structure Response where
  status : Nat
  setCookie : Option String
  body : String
deriving DecidableEq

/-- An error raised by an axios call: either an HTTP error that carries the
offending response in `e.response`, or a network-level failure whose error
object has no `response` field. -/
inductive HttpError where
  | withResponse (resp : Response)
  | noResponse
deriving DecidableEq

/-- A JavaScript exception / rejected promise as observed by the caller. -/
inductive JsError where
  | validation (msg : String)
  | typeError (msg : String)
  | syntaxError (msg : String)
  | http (e : HttpError)
deriving DecidableEq

/-- A fully built HTTP request as it leaves the axios client: method, the
`url` passed to axios, the `params` object (in JS key order; axios drops
`undefined` entries before this list is built), the request body, an explicit
`Content-Type` header when the call site sets one, and the client's default
`Cookie` header attached to every request. -/
structure Request where
  method : String
  url : String
  params : List (String × String)
  data : Option String
  contentType : Option String
  cookie : String
deriving DecidableEq

/-- Raw transport outcome for one request, before axios interprets status. -/
inductive NetOutcome where
  | response (status : Nat) (setCookie : Option String) (body : String)
  | failure
deriving DecidableEq

/-- The transport: what the network does with each request. -/
abbrev Net := Request → NetOutcome

/-- The `validateStatus` function passed to `axios.create` at both creation
sites: `status => status >= 200 && status < 303`. -/
def validateStatus (status : Nat) : Bool :=
  200 ≤ status && status < 303

/-- Configuration state of an axios instance as created by the class:
`axios.create({ baseURL, maxRedirects: 0, validateStatus, headers: { Cookie } })`.
Both creation sites use the same literal `validateStatus` function, modelled
once as `validateStatus` above. -/
structure AxiosInstance where
  baseURL : String
  maxRedirects : Nat
  cookie : String
deriving DecidableEq

/-- Wrapper for `axios.create` as invoked by the class (always `maxRedirects: 0`). -/
def axiosCreate (baseURL cookie : String) : AxiosInstance :=
  { baseURL := baseURL, maxRedirects := 0, cookie := cookie }

/-- One axios call: ask the transport, then apply `validateStatus`.  An
out-of-range status rejects with the response attached (`e.response`); a
network failure rejects with no response attached. -/
def axiosRequest (_inst : AxiosInstance) (net : Net) (req : Request) :
    Except HttpError Response :=
  match net req with
  | .response st sc body =>
      if validateStatus st then .ok { status := st, setCookie := sc, body := body }
      else .error (.withResponse { status := st, setCookie := sc, body := body })
  | .failure => .error .noResponse

/-! ### `encodeURIComponent` and the axios params serializer -/

/-- Upper-case hexadecimal digit for `n < 16`. -/
def hexDigit (n : Nat) : Char :=
  if n < 10 then Char.ofNat (48 + n) else Char.ofNat (65 + n - 10)

/-- UTF-8 bytes of a single character, as natural numbers. -/
def utf8Bytes (c : Char) : List Nat :=
  let n := c.toNat
  if n < 128 then [n]
  else if n < 2048 then [192 + n / 64, 128 + n % 64]
  else if n < 65536 then [224 + n / 4096, 128 + (n / 64) % 64, 128 + n % 64]
  else [240 + n / 262144, 128 + (n / 4096) % 64, 128 + (n / 64) % 64, 128 + n % 64]

/-- Percent-encoding `%XX` of one byte. -/
def percentEncodeByte (b : Nat) : String :=
  String.mk ['%', hexDigit (b / 16), hexDigit (b % 16)]

/-- Characters `encodeURIComponent` leaves unescaped:
alphanumerics and `- _ . ! ~ * ' ( )`. -/
def isUnreservedURIChar (c : Char) : Bool :=
  c.isAlpha || c.isDigit ||
    ['-', '_', '.', '!', '~', '*', Char.ofNat 39, '(', ')'].contains c

/-- Encoding of one character under `encodeURIComponent`. -/
def encodeChar (c : Char) : String :=
  if isUnreservedURIChar c then String.mk [c]
  else String.join ((utf8Bytes c).map percentEncodeByte)

/-- JavaScript `encodeURIComponent`. -/
def encodeURIComponent (s : String) : String :=
  String.join (s.data.map encodeChar)

/-- The `encode` helper of axios' default params serializer:
`encodeURIComponent`, with `@ : $ , [ ]` restored to their literal form and
spaces rendered as `+`. -/
def axiosEncodeChar (c : Char) : String :=
  if c = ' ' then "+"
  else if ['@', ':', '$', ',', '[', ']'].contains c then String.mk [c]
  else encodeChar c

/-- The axios params-serializer encoding of one string. -/
def axiosEncode (s : String) : String :=
  String.join (s.data.map axiosEncodeChar)

/-- Axios' default serialization of the `params` object:
`encode(key) + '=' + encode(value)` joined with `&`. -/
def serializeParams : List (String × String) → String
  | [] => ""
  | [(k, v)] => axiosEncode k ++ "=" ++ axiosEncode v
  | (k, v) :: rest => axiosEncode k ++ "=" ++ axiosEncode v ++ "&" ++ serializeParams rest

/-- Axios `buildURL`: append the serialized params to the `url`, using `&`
when the url already contains a `?` and `?` otherwise. -/
def buildURL (url : String) (params : List (String × String)) : String :=
  if params = [] then url
  else url ++ (if url.data.contains '?' then "&" else "?") ++ serializeParams params

/-! ### `JSON.stringify` / `JSON.parse` on cookie records

`_saveCookies` writes `JSON.stringify(h)` to `./headers` and
`_getPresavedHeaders` reads it back with `JSON.parse`.  The records the class
ever writes are strings, so the codec is modelled on JSON string literals:
`stringify` wraps in double quotes, escaping `"` and `\`; `parse` inverts
this and returns `none` on text that is not such a literal. -/

/-- JSON escaping of one character inside a string literal. -/
def jsonEscapeChar (c : Char) : List Char :=
  if c = '"' then ['\\', '"']
  else if c = '\\' then ['\\', '\\']
  else [c]

/-- JSON escaping of a whole character sequence. -/
def jsonEscape : List Char → List Char
  | [] => []
  | c :: rest => jsonEscapeChar c ++ jsonEscape rest

/-- Model of `JSON.stringify` on a string value. -/
def jsonStringifyString (s : String) : String :=
  String.mk ('"' :: jsonEscape s.data ++ ['"'])

/-- Parse the remainder of a JSON string literal (after the opening quote):
succeeds exactly when the closing quote is the final character and all
interior quotes/backslashes are escaped. -/
def jsonParseChars : List Char → Option (List Char)
  | [] => none
  | c :: rest =>
    if c = '"' then (if rest = [] then some [] else none)
    else if c = '\\' then
      match rest with
      | [] => none
      | d :: rest2 =>
        if d = '"' || d = '\\' then (jsonParseChars rest2).map (d :: ·) else none
    else (jsonParseChars rest).map (c :: ·)

/-- Model of `JSON.parse` restricted to JSON string literals; `none` models a thrown
`SyntaxError`. -/
def jsonParseString (s : String) : Option String :=
  match s.data with
  | '"' :: rest => (jsonParseChars rest).map String.mk
  | _ => none

/-! ### The `IServTool` class -/

/-- Instance state of an `IServTool` object.  The constructor's `log` flag
only gates `console.log` output and the `_cookieHeader` field is assigned
`null` once and never read, so neither is carried here. -/
structure IServTool where
  host : String
  username : String
  password : String
  keepalive : Bool
  reuseCookies : Bool
  axios : AxiosInstance
deriving DecidableEq

/-- Method `_getPresavedHeaders()`: when cookie reuse is on and `./headers` exists,
`JSON.parse` its content (a thrown `SyntaxError` on malformed content);
otherwise return `undefined`. -/
def _getPresavedHeaders (reuseCookies : Bool) (file : Option String) :
    Except JsError (Option String) :=
  if reuseCookies then
    match file with
    | some content =>
      match jsonParseString content with
      | some v => .ok (some v)
      | none => .error (.syntaxError "Unexpected token in JSON at position 0")
    | none => .ok none
  else .ok none

/-- The `IServTool` constructor: store the credentials and flags, load any
pre-saved cookie header, and create the axios instance with
`baseURL: https://{host}`, `maxRedirects: 0`, the shared `validateStatus`
policy and default header `Cookie: cookies || ''`. -/
def IServTool.construct (host username password : String)
    (keepalive reuseCookies : Bool) (file : Option String) :
    Except JsError IServTool :=
  match _getPresavedHeaders reuseCookies file with
  | .error e => .error e
  | .ok cookies =>
    .ok { host := host, username := username, password := password,
          keepalive := keepalive, reuseCookies := reuseCookies,
          axios := axiosCreate ("https://" ++ host) (jsOrEmpty cookies) }

/-- Result of one instance-method call: the HTTP requests issued, in order,
and the value returned (or the exception thrown). -/
abbrev CallResult (α : Type) := List Request × Except JsError α

/-- Shared shape of every plain endpoint method: issue the request through
`this._axios` and return `resp.data`, letting any axios rejection propagate. -/
def dispatch (t : IServTool) (net : Net) (req : Request) : CallResult String :=
  match axiosRequest t.axios net req with
  | .ok resp => ([req], .ok resp.body)
  | .error e => ([req], .error (.http e))

/-- One `params` entry for a value axios drops when it is `undefined`. -/
def optParam (k : String) : Option String → List (String × String)
  | some v => [(k, v)]
  | none => []

/-- Request built by `getNotifications`. -/
def notificationsReq (t : IServTool) (since : String) : Request :=
  { method := "GET",
    url := "/iserv/user/api/notifications?since=" ++ encodeURIComponent since,
    params := [], data := none, contentType := none, cookie := t.axios.cookie }

/-- Method `getNotifications(since)`: `if (!since) throw new Error('No since given')`,
then GET the notifications url. -/
def getNotifications (t : IServTool) (net : Net) (since : Option String) :
    CallResult String :=
  if jsFalsy since then ([], .error (.validation "No since given"))
  else dispatch t net (notificationsReq t (jsOrEmpty since))

/-- Request built by `getMailFolders`. -/
def mailFoldersReq (t : IServTool) : Request :=
  { method := "GET", url := "iserv/mail/api/folder/list",
    params := [], data := none, contentType := none, cookie := t.axios.cookie }

/-- Method `getMailFolders()`. -/
def getMailFolders (t : IServTool) (net : Net) : CallResult String :=
  dispatch t net (mailFoldersReq t)

/-- Request built by `getUnreadMails`. -/
def unreadMailsReq (t : IServTool) : Request :=
  { method := "GET", url := "iserv/mail/api/unread/inbox",
    params := [], data := none, contentType := none, cookie := t.axios.cookie }

/-- Method `getUnreadMails()`. -/
def getUnreadMails (t : IServTool) (net : Net) : CallResult String :=
  dispatch t net (unreadMailsReq t)

/-- Request built by `getMessagesForInbox` (numeric params serialized the way
axios renders JS numbers). -/
def inboxListReq (t : IServTool) (path : String) (length start : Nat)
    (column dir : String) : Request :=
  { method := "GET", url := "iserv/mail/api/message/list",
    params := [("path", path), ("length", toString length),
               ("start", toString start), ("order[column]", column),
               ("order[dir]", dir)],
    data := none, contentType := some "application/x-www-form-urlencoded",
    cookie := t.axios.cookie }

/-- Method `getMessagesForInbox(path = 'INBOX', length = 50, start = 0,
column = 'date', dir = 'desc')`; JS default-parameter values apply exactly to
`undefined` arguments. -/
def getMessagesForInbox (t : IServTool) (net : Net) (path : Option String)
    (length start : Option Nat) (column dir : Option String) :
    CallResult String :=
  dispatch t net
    (inboxListReq t (path.getD "INBOX") (length.getD 50) (start.getD 0)
      (column.getD "date") (dir.getD "desc"))

/-- Request built by `getUpcomingEvents`. -/
def upcomingEventsReq (t : IServTool) (includeSubscriptions : Bool)
    (limit : Nat) : Request :=
  { method := "GET", url := "iserv/calendar/api/upcoming",
    params := [("includeSubscriptions", if includeSubscriptions then "true" else "false"),
               ("limit", toString limit)],
    data := none, contentType := some "application/x-www-form-urlencoded",
    cookie := t.axios.cookie }

/-- Method `getUpcomingEvents(includeSubscriptions = false, limit = 14)` (the unused
local `url` constant of the source is dead code and not modelled). -/
def getUpcomingEvents (t : IServTool) (net : Net)
    (includeSubscriptions : Option Bool) (limit : Option Nat) :
    CallResult String :=
  dispatch t net
    (upcomingEventsReq t (includeSubscriptions.getD false) (limit.getD 14))

/-- Template-literal interpolation of a possibly-`undefined` JS value:
`undefined` renders as the text `undefined`. -/
def jsInterp : Option String → String
  | some s => s
  | none => "undefined"

/-- Request built by `getUserProfilePic` (`responseType: 'arraybuffer'`; the
body field stands for the raw bytes). -/
def profilePicReq (t : IServTool) (user w h : Option String) : Request :=
  { method := "GET",
    url := "iserv/addressbook/public/image/" ++ jsInterp user ++ "/photo/" ++
      (w.getD "") ++ "/" ++ (h.getD ""),
    params := [], data := none, contentType := none, cookie := t.axios.cookie }

/-- Value returned by `getUserProfilePic`: the raw payload, or the literal
boolean `false` from the catch block. -/
inductive PicResult where
  | bytes (data : String)
  | boolFalse
deriving DecidableEq

/-- Method `getUserProfilePic(user, w = '', h = '')`: the whole request is wrapped in
`try { ... return resp.data } catch (e) { return false }`. -/
def getUserProfilePic (t : IServTool) (net : Net) (user w h : Option String) :
    CallResult PicResult :=
  let req := profilePicReq t user w h
  match axiosRequest t.axios net req with
  | .ok resp => ([req], .ok (.bytes resp.body))
  | .error _ => ([req], .ok .boolFalse)

/-- Request built by `getMessageByID` (axios drops the `msg` param when `id`
is `undefined`). -/
def messageByIDReq (t : IServTool) (id : Option String) (path : String) :
    Request :=
  { method := "GET", url := "/iserv/mail/api/message",
    params := [("path", path)] ++ optParam "msg" id,
    data := none, contentType := none, cookie := t.axios.cookie }

/-- Method `getMessageByID(id, path = 'INBOX')`: only `path` is validated
(`if (!path) throw new Error('No message ID given')`); `id` is never checked. -/
def getMessageByID (t : IServTool) (net : Net) (id path : Option String) :
    CallResult String :=
  let path := path.getD "INBOX"
  if path.isEmpty then ([], .error (.validation "No message ID given"))
  else dispatch t net (messageByIDReq t id path)

/-- Request built by `userLookup`: the `url` string already carries the
hard-coded literal `query=warnke`, and the caller's query is passed as a
`params` entry on top of it. -/
def userLookupReq (t : IServTool) (query : String) : Request :=
  { method := "GET", url := "iserv/addressbook/lookup?query=warnke",
    params := [("query", query)],
    data := none, contentType := none, cookie := t.axios.cookie }

/-- Method `userLookup(query)`: `if (!query) throw new Error('No query given to user
lookup')`, then GET. -/
def userLookup (t : IServTool) (net : Net) (query : Option String) :
    CallResult String :=
  if jsFalsy query then ([], .error (.validation "No query given to user lookup"))
  else dispatch t net (userLookupReq t (jsOrEmpty query))

/-- Request built by `getFolderTree`. -/
def folderTreeReq (t : IServTool) (subfolder : String) : Request :=
  { method := "GET", url := "iserv/file.json/" ++ subfolder,
    params := [], data := none, contentType := none, cookie := t.axios.cookie }

/-- Method `getFolderTree(subfolder = '')`. -/
def getFolderTree (t : IServTool) (net : Net) (subfolder : Option String) :
    CallResult String :=
  dispatch t net (folderTreeReq t (subfolder.getD ""))

/-- Request built by `getEventSources`. -/
def eventSourcesReq (t : IServTool) : Request :=
  { method := "GET", url := "iserv/calendar/api/eventsources",
    params := [], data := none, contentType := none, cookie := t.axios.cookie }

/-- Method `getEventSources()`. -/
def getEventSources (t : IServTool) (net : Net) : CallResult String :=
  dispatch t net (eventSourcesReq t)

/-- Request built by `getEventsFromSource` (axios drops `undefined` params). -/
def eventsFromSourceReq (t : IServTool) (source start end_ : Option String) :
    Request :=
  { method := "GET", url := "iserv/calendar/api/feed",
    params := optParam "cal" source ++ optParam "start" start ++ optParam "end" end_,
    data := none, contentType := none, cookie := t.axios.cookie }

/-- Method `getEventsFromSource(source, start, end)`: no parameter validation at all. -/
def getEventsFromSource (t : IServTool) (net : Net)
    (source start end_ : Option String) : CallResult String :=
  dispatch t net (eventsFromSourceReq t source start end_)

/-! ### Session management: `isCookieValid`, `login`, `_saveCookies` -/

/-- The liveness probe request of `isCookieValid`. -/
def probeReq (t : IServTool) : Request :=
  { method := "GET", url := "iserv/",
    params := [], data := none, contentType := none, cookie := t.axios.cookie }

/-- Method `isCookieValid()`: GET `iserv/`; `true` on success.  The catch block
always evaluates the template literal
`` `[isValid] ... ${e.response.status} (${e.response.statusText})` `` before
calling `this._log`, so an error without a `response` field makes the catch
block itself throw a `TypeError` instead of reaching `return false`. -/
def isCookieValid (t : IServTool) (net : Net) : CallResult Bool :=
  let req := probeReq t
  match axiosRequest t.axios net req with
  | .ok _ => ([req], .ok true)
  | .error (.withResponse _) => ([req], .ok false)
  | .error .noResponse =>
      ([req], .error (.typeError "Cannot read property status of undefined"))

/-- Model of `querystring.stringify` on the login fields: the
`application/x-www-form-urlencoded` login body. -/
def loginForm (username password : String) : String :=
  "_username=" ++ encodeURIComponent username ++
    "&_password=" ++ encodeURIComponent password

/-- The login POST request: `{ data: form, method: 'POST',
url: '/iserv/login_check' }`. -/
def loginPostReq (t : IServTool) : Request :=
  { method := "POST", url := "/iserv/login_check",
    params := [], data := some (loginForm t.username t.password),
    contentType := none, cookie := t.axios.cookie }

/-- Method `_saveCookies(h)`: when reuse is on, `fs.writeFileSync('./headers',
JSON.stringify(h))`.  `JSON.stringify(undefined)` is `undefined`, and
`writeFileSync` throws a `TypeError` for `undefined` data, so persisting an
absent `set-cookie` header fails.  Returns the new file content. -/
def _saveCookies (reuseCookies : Bool) (h : Option String)
    (file : Option String) : Except JsError (Option String) :=
  if reuseCookies then
    match h with
    | some v => .ok (some (jsonStringifyString v))
    | none => .error (.typeError "The data argument must be of type string")
  else .ok file

/-- The non-fast-path tail of `login()` (from `this._log('[LOGIN] Logging
in...')` onward): POST the form, rebuild `this._axios` with the response's
`set-cookie` header (or `''`) as default `Cookie`, then `_saveCookies`.
`reqs` carries the requests already issued by the probe. -/
def loginSubmit (t : IServTool) (net : Net) (file : Option String)
    (reqs : List Request) : CallResult (IServTool × Option String) :=
  let req := loginPostReq t
  match axiosRequest t.axios net req with
  | .error e => (reqs ++ [req], .error (.http e))
  | .ok resp =>
    let t2 := { t with
      axios := axiosCreate ("https://" ++ t.host) (jsOrEmpty resp.setCookie) }
    match _saveCookies t.reuseCookies resp.setCookie file with
    | .ok file2 => (reqs ++ [req], .ok (t2, file2))
    | .error e => (reqs ++ [req], .error e)

/-- Method `login()`: `if (this.reuseCookies && await this.isCookieValid()) return;`
then the form POST.  The result carries the (possibly rebuilt) instance and
the (possibly rewritten) cookie file. -/
def login (t : IServTool) (net : Net) (file : Option String) :
    CallResult (IServTool × Option String) :=
  if t.reuseCookies then
    match isCookieValid t net with
    | (reqs, .ok true) => (reqs, .ok (t, file))
    | (reqs, .ok false) => loginSubmit t net file reqs
    | (reqs, .error e) => (reqs, .error e)
  else loginSubmit t net file []

/-! ### Concrete fixtures used to instantiate the theorems -/

/-- A client constructed over `school.example` with reuse disabled. -/
def tEx : IServTool :=
  { host := "school.example", username := "alice", password := "secret",
    keepalive := false, reuseCookies := false,
    axios := axiosCreate "https://school.example" "" }

/-- The same client with cookie reuse enabled. -/
def tRe : IServTool :=
  { tEx with reuseCookies := true }

/-- A transport that answers every request with `200`, a `set-cookie` header
and a JSON body. -/
def netOK : Net := fun _ => .response 200 (some "sess=abc") "{}"

/-- A transport on which every request fails at the network level (the raised
error has no `response`). -/
def netFail : Net := fun _ => .failure

/-- A transport that answers every request with `401`. -/
def net401 : Net := fun _ => .response 401 none ""

/-- A transport whose login POST succeeds with `200` but without any
`set-cookie` header, while the probe GET gets `401`. -/
def netNoCookie : Net := fun r =>
  if r.method = "POST" then .response 200 none "" else .response 401 none ""

/-! ### Helper lemmas -/

theorem dispatch_fst (t : IServTool) (net : Net) (req : Request) :
    (dispatch t net req).1 = [req] := by
  rcases hq : axiosRequest t.axios net req with r | e <;> simp [dispatch, hq]

theorem dispatch_ok (t : IServTool) (net : Net) (req : Request)
    (resp : Response) (h : axiosRequest t.axios net req = .ok resp) :
    (dispatch t net req).2 = .ok resp.body := by
  simp [dispatch, h]

theorem dispatch_error (t : IServTool) (net : Net) (req : Request)
    (e : HttpError) (h : axiosRequest t.axios net req = .error e) :
    (dispatch t net req).2 = .error (.http e) := by
  simp [dispatch, h]

theorem isCookieValid_fst (t : IServTool) (net : Net) :
    (isCookieValid t net).1 = [probeReq t] := by
  rcases hq : axiosRequest t.axios net (probeReq t) with e | r
  · cases e <;> simp [isCookieValid, hq]
  · simp [isCookieValid, hq]

theorem jsonParseChars_escape (l : List Char) :
    jsonParseChars (jsonEscape l ++ ['"']) = some l := by
  induction l with
  | nil => rfl
  | cons c rest ih =>
    by_cases h1 : c = '"'
    · subst h1
      simp [jsonEscape, jsonEscapeChar, jsonParseChars, ih]
    · by_cases h2 : c = '\\'
      · subst h2
        simp [jsonEscape, jsonEscapeChar, jsonParseChars, ih]
      · simp only [jsonEscape, jsonEscapeChar, if_neg h1, if_neg h2,
          List.cons_append, List.nil_append]
        rw [jsonParseChars.eq_def]
        simp [h1, h2, ih]

/-- Round trip: `JSON.parse` inverts `JSON.stringify` on every cookie string. -/
theorem jsonParse_stringify (s : String) :
    jsonParseString (jsonStringifyString s) = some s := by
  cases s with
  | mk l => simp [jsonStringifyString, jsonParseString, jsonParseChars_escape]

theorem getUserProfilePic_fst (t : IServTool) (net : Net) (user w h : Option String) :
    (getUserProfilePic t net user w h).1 = [profilePicReq t user w h] := by
  rcases hq : axiosRequest t.axios net (profilePicReq t user w h) with e | r <;>
    simp [getUserProfilePic, hq]

theorem loginSubmit_fst (t : IServTool) (net : Net) (file : Option String)
    (reqs : List Request) :
    (loginSubmit t net file reqs).1 = reqs ++ [loginPostReq t] := by
  rcases hq : axiosRequest t.axios net (loginPostReq t) with e | r
  · simp [loginSubmit, hq]
  · rcases hs : _saveCookies t.reuseCookies r.setCookie file with e2 | f2 <;>
      simp [loginSubmit, hq, hs]

theorem loginSubmit_ok (t : IServTool) (net : Net) (file : Option String)
    (reqs : List Request) (st : Nat) (v body : String)
    (hnet : net (loginPostReq t) = .response st (some v) body)
    (hst : validateStatus st = true) :
    (loginSubmit t net file reqs).2 =
      .ok ({ t with axios := axiosCreate ("https://" ++ t.host) v },
           if t.reuseCookies then some (jsonStringifyString v) else file) := by
  have hq : axiosRequest t.axios net (loginPostReq t) =
      .ok { status := st, setCookie := some v, body := body } := by
    simp [axiosRequest, hnet, hst]
  cases hre : t.reuseCookies <;>
    simp [loginSubmit, hq, _saveCookies, hre, jsOrEmpty]

/-! ### The claims -/

/-- Claim C4: with `reuseCookies` enabled and `isCookieValid()` returning
`true`, `login()` returns immediately: the only request issued is the GET
probe (no POST), and the instance state and the persisted cookie file are
returned unchanged. -/
theorem claim4_login_fast_path (t : IServTool) (net : Net) (file : Option String)
    (hre : t.reuseCookies = true)
    (hok : (isCookieValid t net).2 = .ok true) :
    login t net file = ([probeReq t], .ok (t, file)) ∧
    (probeReq t).method = "GET" := by
  have hic : isCookieValid t net = ([probeReq t], .ok true) :=
    Prod.ext (isCookieValid_fst t net) hok
  exact ⟨by simp [login, hre, hic], rfl⟩

/-- Witness for C4: a reuse-enabled client over a transport whose probe
succeeds takes the fast path. -/
theorem claim4_witness :
    login tRe netOK none = ([probeReq tRe], .ok (tRe, none)) ∧
    (probeReq tRe).method = "GET" :=
  claim4_login_fast_path tRe netOK none rfl rfl

/-- Claim C7: `getMessagesForInbox()` with every argument omitted issues
exactly one GET to `iserv/mail/api/message/list` with the default parameters
`path=INBOX, length=50, start=0, order[column]=date, order[dir]=desc`, and
returns the response body on success. -/
theorem claim7_inbox_defaults (t : IServTool) (net : Net) :
    (getMessagesForInbox t net none none none none none).1 =
      [inboxListReq t "INBOX" 50 0 "date" "desc"] ∧
    (inboxListReq t "INBOX" 50 0 "date" "desc").method = "GET" ∧
    (inboxListReq t "INBOX" 50 0 "date" "desc").url = "iserv/mail/api/message/list" ∧
    (inboxListReq t "INBOX" 50 0 "date" "desc").params =
      [("path", "INBOX"), ("length", "50"), ("start", "0"),
       ("order[column]", "date"), ("order[dir]", "desc")] ∧
    (∀ resp, axiosRequest t.axios net (inboxListReq t "INBOX" 50 0 "date" "desc") = .ok resp →
      (getMessagesForInbox t net none none none none none).2 = .ok resp.body) := by
  refine ⟨dispatch_fst t net _, rfl, rfl, rfl, ?_⟩
  intro resp h
  exact dispatch_ok t net _ resp h

/-- Witness for C7: on a transport answering `200` with body `{}`, the
default inbox call returns that body. -/
theorem claim7_witness :
    (getMessagesForInbox tEx netOK none none none none none).2 = .ok "{}" :=
  (claim7_inbox_defaults tEx netOK).2.2.2.2
    { status := 200, setCookie := some "sess=abc", body := "{}" } rfl

/-- Claim C8: a cookie value persisted by `_saveCookies` with reuse enabled is
loaded verbatim by a fresh construction with reuse enabled over the same file:
the new instance's initial `Cookie` header is exactly the value that was
saved, with no login involved. -/
theorem claim8_cookie_roundtrip (host username password : String)
    (keepalive : Bool) (v : String) (file : Option String) :
    _saveCookies true (some v) file = .ok (some (jsonStringifyString v)) ∧
    IServTool.construct host username password keepalive true
        (some (jsonStringifyString v)) =
      .ok { host := host, username := username, password := password,
            keepalive := keepalive, reuseCookies := true,
            axios := axiosCreate ("https://" ++ host) v } := by
  refine ⟨rfl, ?_⟩
  simp [IServTool.construct, _getPresavedHeaders, jsonParse_stringify, jsOrEmpty]

/-- Claim C9: a truthy `query` makes `userLookup` issue one GET whose url
string already hard-codes `query=warnke`, with the caller's query passed as a
`params` entry, so the final url carries `query=warnke` followed by the
caller's query as a second `query` parameter. -/
theorem claim9_userLookup (t : IServTool) (net : Net) (q : String)
    (hq : q.isEmpty = false) :
    (userLookup t net (some q)).1 = [userLookupReq t q] ∧
    (userLookupReq t q).url = "iserv/addressbook/lookup?query=warnke" ∧
    (userLookupReq t q).params = [("query", q)] ∧
    buildURL (userLookupReq t q).url (userLookupReq t q).params =
      "iserv/addressbook/lookup?query=warnke&query=" ++ axiosEncode q := by
  refine ⟨?_, rfl, rfl, rfl⟩
  simp only [userLookup, jsFalsy, hq, Bool.false_eq_true, if_false, jsOrEmpty]
  exact dispatch_fst t net _

/-- Counterexample to C1 as stated: calling `getMessageByID` with its required
`id` omitted (and `path` left to default) does not raise a validation error —
the request is issued and the call succeeds. -/
theorem claim1_counterexample :
    (getMessageByID tEx netOK none none).1 = [messageByIDReq tEx none "INBOX"] ∧
    (getMessageByID tEx netOK none none).2 = .ok "{}" :=
  ⟨rfl, rfl⟩

/-- Claim C1 (amended): only `since` (`getNotifications`), `path`
(`getMessageByID`, non-empty) and `query` (`userLookup`) are validated, each
synchronously with no request issued; omitting `id` (`getMessageByID`),
`user` (`getUserProfilePic`) or `source`/`start`/`end`
(`getEventsFromSource`) raises nothing — the request is issued anyway. -/
theorem claim1_validation_policy (t : IServTool) (net : Net) :
    (∀ since, jsFalsy since = true →
      getNotifications t net since = ([], .error (.validation "No since given"))) ∧
    (∀ id, getMessageByID t net id (some "") =
      ([], .error (.validation "No message ID given"))) ∧
    (∀ q, jsFalsy q = true →
      userLookup t net q = ([], .error (.validation "No query given to user lookup"))) ∧
    ((getMessageByID t net none none).1 = [messageByIDReq t none "INBOX"]) ∧
    ((getUserProfilePic t net none none none).1 = [profilePicReq t none none none]) ∧
    ((getEventsFromSource t net none none none).1 = [eventsFromSourceReq t none none none]) := by
  refine ⟨?_, fun id => rfl, ?_, dispatch_fst t net _,
    getUserProfilePic_fst t net none none none, dispatch_fst t net _⟩
  · intro since h
    simp [getNotifications, h]
  · intro q h
    simp [userLookup, h]

/-- Witness for C1 (amended) at concrete inputs: `since` and `query` omitted
raise before any request; `id` omitted still issues the request. -/
theorem claim1_witness :
    getNotifications tEx netOK none = ([], .error (.validation "No since given")) ∧
    userLookup tEx netOK (some "") = ([], .error (.validation "No query given to user lookup")) ∧
    (getMessageByID tEx netOK none none).1 = [messageByIDReq tEx none "INBOX"] := by
  have h := claim1_validation_policy tEx netOK
  exact ⟨h.1 none rfl, h.2.2.1 (some "") rfl, h.2.2.2.1⟩

/-- Claim C2 (code bug): `isCookieValid` returns `true` for an in-range probe
response and `false` when the probe rejects with a response attached, but when
the probe rejects with no response (network failure) the catch block itself
throws a `TypeError` while interpolating `e.response.status`, so the method
raises instead of returning `false`. -/
theorem claim2_isCookieValid :
    isCookieValid tRe netFail =
      ([probeReq tRe], .error (.typeError "Cannot read property status of undefined")) ∧
    (∀ t net resp, axiosRequest t.axios net (probeReq t) = .ok resp →
      isCookieValid t net = ([probeReq t], .ok true)) ∧
    (∀ t net resp, axiosRequest t.axios net (probeReq t) = .error (.withResponse resp) →
      isCookieValid t net = ([probeReq t], .ok false)) ∧
    (∀ t net, axiosRequest t.axios net (probeReq t) = .error .noResponse →
      isCookieValid t net =
        ([probeReq t], .error (.typeError "Cannot read property status of undefined"))) := by
  refine ⟨rfl, ?_, ?_, ?_⟩
  · intro t net resp h
    simp [isCookieValid, h]
  · intro t net resp h
    simp [isCookieValid, h]
  · intro t net h
    simp [isCookieValid, h]

/-- Witness for C2: a `200` probe yields `true`, a `401` probe yields `false`
without raising. -/
theorem claim2_witness :
    isCookieValid tEx netOK = ([probeReq tEx], .ok true) ∧
    isCookieValid tEx net401 = ([probeReq tEx], .ok false) :=
  ⟨claim2_isCookieValid.2.1 tEx netOK
      { status := 200, setCookie := some "sess=abc", body := "{}" } rfl,
    claim2_isCookieValid.2.2.1 tEx net401
      { status := 401, setCookie := none, body := "" } rfl⟩

/-- Claim C3: `getUserProfilePic` never throws — it returns the raw payload on
success and the literal boolean `false` whenever the request rejects for any
reason — while every other endpoint operation propagates the axios rejection
unchanged as an `.http` error. -/
theorem claim3_error_policy (t : IServTool) (net : Net) :
    (∀ user w h e, (getUserProfilePic t net user w h).2 ≠ .error e) ∧
    (∀ user w h resp,
      axiosRequest t.axios net (profilePicReq t user w h) = .ok resp →
      (getUserProfilePic t net user w h).2 = .ok (.bytes resp.body)) ∧
    (∀ user w h e,
      axiosRequest t.axios net (profilePicReq t user w h) = .error e →
      (getUserProfilePic t net user w h).2 = .ok .boolFalse) ∧
    (∀ since e, since.isEmpty = false →
      axiosRequest t.axios net (notificationsReq t since) = .error e →
      (getNotifications t net (some since)).2 = .error (.http e)) ∧
    (∀ e, axiosRequest t.axios net (mailFoldersReq t) = .error e →
      (getMailFolders t net).2 = .error (.http e)) ∧
    (∀ e, axiosRequest t.axios net (unreadMailsReq t) = .error e →
      (getUnreadMails t net).2 = .error (.http e)) ∧
    (∀ path length start column dir e,
      axiosRequest t.axios net
          (inboxListReq t (path.getD "INBOX") (length.getD 50) (start.getD 0)
            (column.getD "date") (dir.getD "desc")) = .error e →
      (getMessagesForInbox t net path length start column dir).2 = .error (.http e)) ∧
    (∀ includeSubscriptions limit e,
      axiosRequest t.axios net
          (upcomingEventsReq t (includeSubscriptions.getD false) (limit.getD 14)) = .error e →
      (getUpcomingEvents t net includeSubscriptions limit).2 = .error (.http e)) ∧
    (∀ id path e, (path.getD "INBOX" : String).isEmpty = false →
      axiosRequest t.axios net (messageByIDReq t id (path.getD "INBOX")) = .error e →
      (getMessageByID t net id path).2 = .error (.http e)) ∧
    (∀ q e, q.isEmpty = false →
      axiosRequest t.axios net (userLookupReq t q) = .error e →
      (userLookup t net (some q)).2 = .error (.http e)) ∧
    (∀ subfolder e,
      axiosRequest t.axios net (folderTreeReq t (subfolder.getD "")) = .error e →
      (getFolderTree t net subfolder).2 = .error (.http e)) ∧
    (∀ e, axiosRequest t.axios net (eventSourcesReq t) = .error e →
      (getEventSources t net).2 = .error (.http e)) ∧
    (∀ source start end_ e,
      axiosRequest t.axios net (eventsFromSourceReq t source start end_) = .error e →
      (getEventsFromSource t net source start end_).2 = .error (.http e)) := by
  refine ⟨?_, ?_, ?_, ?_, ?_, ?_, ?_, ?_, ?_, ?_, ?_, ?_, ?_⟩
  · intro user w h e
    rcases hq : axiosRequest t.axios net (profilePicReq t user w h) with e2 | r <;>
      simp [getUserProfilePic, hq]
  · intro user w h resp hq
    simp [getUserProfilePic, hq]
  · intro user w h e hq
    simp [getUserProfilePic, hq]
  · intro since e hne hq
    simp only [getNotifications, jsFalsy, hne, Bool.false_eq_true, if_false, jsOrEmpty]
    exact dispatch_error t net _ e hq
  · intro e hq
    exact dispatch_error t net _ e hq
  · intro e hq
    exact dispatch_error t net _ e hq
  · intro path length start column dir e hq
    exact dispatch_error t net _ e hq
  · intro includeSubscriptions limit e hq
    exact dispatch_error t net _ e hq
  · intro id path e hne hq
    simp only [getMessageByID, hne, Bool.false_eq_true, if_false]
    exact dispatch_error t net _ e hq
  · intro q e hne hq
    simp only [userLookup, jsFalsy, hne, Bool.false_eq_true, if_false, jsOrEmpty]
    exact dispatch_error t net _ e hq
  · intro subfolder e hq
    exact dispatch_error t net _ e hq
  · intro e hq
    exact dispatch_error t net _ e hq
  · intro source start end_ e hq
    exact dispatch_error t net _ e hq

/-- Witness for C3: on a transport where every request fails, the profile
picture call returns `false` while a plain endpoint call rejects with the
propagated transport error. -/
theorem claim3_witness :
    (getUserProfilePic tEx netFail (some "bob") none none).2 = .ok .boolFalse ∧
    (getMailFolders tEx netFail).2 = .error (.http .noResponse) :=
  ⟨(claim3_error_policy tEx netFail).2.2.1 (some "bob") none none .noResponse rfl,
    (claim3_error_policy tEx netFail).2.2.2.2.1 .noResponse rfl⟩

/-- Counterexample to C5 as stated: a run that does not take the fast path
(reuse is on but the probe rejects without a response) issues no POST at all —
`login()` propagates the `TypeError` thrown inside `isCookieValid`'s catch
block, its only request being the probe GET. -/
theorem claim5_counterexample :
    login tRe netFail none =
      ([probeReq tRe], .error (.typeError "Cannot read property status of undefined")) :=
  rfl

/-- Claim C5 (amended): when `login()` does not take the fast path and the
liveness probe does not itself raise (reuse disabled, or the probe returned
`false`), it issues exactly one POST — to `/iserv/login_check` with the
form-encoded `_username`/`_password` body, after the GET probe when reuse is
on — and, when the POST succeeds with a `Set-Cookie` value `v`, rebuilds the
client with `v` as its default `Cookie` header and overwrites the persisted
cookie file with `v` exactly when `reuseCookies` is enabled. -/
theorem claim5_login_post_path (t : IServTool) (net : Net) (file : Option String)
    (hpath : t.reuseCookies = false ∨ (isCookieValid t net).2 = .ok false) :
    ((login t net file).1 =
      (if t.reuseCookies then [probeReq t] else []) ++ [loginPostReq t]) ∧
    (loginPostReq t).method = "POST" ∧
    (loginPostReq t).url = "/iserv/login_check" ∧
    (loginPostReq t).data = some (loginForm t.username t.password) ∧
    (probeReq t).method = "GET" ∧
    (∀ st v body, net (loginPostReq t) = .response st (some v) body →
      validateStatus st = true →
      (login t net file).2 =
        .ok ({ t with axios := axiosCreate ("https://" ++ t.host) v },
             if t.reuseCookies then some (jsonStringifyString v) else file)) := by
  cases hre : t.reuseCookies with
  | false =>
    refine ⟨?_, rfl, rfl, rfl, rfl, ?_⟩
    · simp [login, hre, loginSubmit_fst]
    · intro st v body hnet hst
      have := loginSubmit_ok t net file [] st v body hnet hst
      rw [hre] at this
      simp [login, hre, this]
  | true =>
    have hfalse : (isCookieValid t net).2 = .ok false := by
      rcases hpath with h | h
      · rw [hre] at h
        exact absurd h (by simp)
      · exact h
    have hic : isCookieValid t net = ([probeReq t], .ok false) :=
      Prod.ext (isCookieValid_fst t net) hfalse
    refine ⟨?_, rfl, rfl, rfl, rfl, ?_⟩
    · simp [login, hre, hic, loginSubmit_fst]
    · intro st v body hnet hst
      have := loginSubmit_ok t net file [probeReq t] st v body hnet hst
      rw [hre] at this
      simp [login, hre, hic, this]

/-- Witness for C5 (amended): with reuse disabled over a transport whose POST
answers `200` with `Set-Cookie: sess=abc`, login issues the single POST and
rebuilds the client with that cookie. -/
theorem claim5_witness :
    (login tEx netOK none).1 = [loginPostReq tEx] ∧
    (login tEx netOK none).2 =
      .ok ({ tEx with axios := axiosCreate "https://school.example" "sess=abc" }, none) := by
  have h := claim5_login_post_path tEx netOK none (Or.inl rfl)
  exact ⟨h.1, h.2.2.2.2.2 200 "sess=abc" "{}" rfl rfl⟩

/-- Claim C6: construction binds the client to `https://{host}` with
`maxRedirects: 0`, accepts exactly the statuses in `[200, 303)`, and starts
from the persisted cookie record exactly when reuse is on and the record file
exists, from the empty header otherwise. -/
theorem claim6_construct_spec (host username password : String) (keepalive : Bool) :
    (∀ s, validateStatus s = true ↔ 200 ≤ s ∧ s < 303) ∧
    (∀ b c, (axiosCreate b c).baseURL = b ∧ (axiosCreate b c).maxRedirects = 0) ∧
    (∀ file, IServTool.construct host username password keepalive false file =
      .ok { host := host, username := username, password := password,
            keepalive := keepalive, reuseCookies := false,
            axios := axiosCreate ("https://" ++ host) "" }) ∧
    (IServTool.construct host username password keepalive true none =
      .ok { host := host, username := username, password := password,
            keepalive := keepalive, reuseCookies := true,
            axios := axiosCreate ("https://" ++ host) "" }) ∧
    (∀ content v, jsonParseString content = some v →
      IServTool.construct host username password keepalive true (some content) =
        .ok { host := host, username := username, password := password,
              keepalive := keepalive, reuseCookies := true,
              axios := axiosCreate ("https://" ++ host) v }) := by
  refine ⟨?_, fun b c => ⟨rfl, rfl⟩, fun file => rfl, rfl, ?_⟩
  · intro s
    simp [validateStatus]
  · intro content v h
    simp [IServTool.construct, _getPresavedHeaders, h, jsOrEmpty]

/-- Witness for C6: constructing over a file containing the serialized record
`"sess=abc"` loads `sess=abc` as the initial cookie header. -/
theorem claim6_witness :
    IServTool.construct "school.example" "alice" "secret" false true
        (some (jsonStringifyString "sess=abc")) =
      .ok { host := "school.example", username := "alice", password := "secret",
            keepalive := false, reuseCookies := true,
            axios := axiosCreate "https://school.example" "sess=abc" } :=
  (claim6_construct_spec "school.example" "alice" "secret" false).2.2.2.2
    (jsonStringifyString "sess=abc") "sess=abc" rfl

/-- Counterexample to C10 as stated: with reuse enabled, a login POST that
succeeds without a `Set-Cookie` header does not complete silently —
`_saveCookies` passes `JSON.stringify(undefined) = undefined` to
`fs.writeFileSync`, which throws. -/
theorem claim10_counterexample :
    login tRe netNoCookie none =
      ([probeReq tRe, loginPostReq tRe],
       .error (.typeError "The data argument must be of type string")) :=
  rfl

/-- Claim C10 (amended): when the login POST succeeds without a `Set-Cookie`
header, the rebuilt client's default `Cookie` header is the empty string and —
with reuse disabled — `login()` completes without raising, silently leaving
the session unauthenticated; with reuse enabled the same situation instead
raises a `TypeError` from the cookie-persistence write. -/
theorem claim10_no_setcookie :
    (∀ (t : IServTool) (net : Net) (file : Option String) (st : Nat) (body : String),
      t.reuseCookies = false →
      net (loginPostReq t) = .response st none body → validateStatus st = true →
      login t net file =
        ([loginPostReq t],
         .ok ({ t with axios := axiosCreate ("https://" ++ t.host) "" }, file))) ∧
    (∀ (t : IServTool) (net : Net) (file : Option String) (st : Nat) (body : String),
      t.reuseCookies = true →
      (isCookieValid t net).2 = .ok false →
      net (loginPostReq t) = .response st none body → validateStatus st = true →
      (login t net file).2 =
        .error (.typeError "The data argument must be of type string")) := by
  constructor
  · intro t net file st body hre hnet hst
    have hq : axiosRequest t.axios net (loginPostReq t) =
        .ok { status := st, setCookie := none, body := body } := by
      simp [axiosRequest, hnet, hst]
    simp [login, hre, loginSubmit, hq, _saveCookies, jsOrEmpty]
  · intro t net file st body hre hfalse hnet hst
    have hq : axiosRequest t.axios net (loginPostReq t) =
        .ok { status := st, setCookie := none, body := body } := by
      simp [axiosRequest, hnet, hst]
    have hic : isCookieValid t net = ([probeReq t], .ok false) :=
      Prod.ext (isCookieValid_fst t net) hfalse
    simp [login, hre, hic, loginSubmit, hq, _saveCookies]

/-- Witness for C10 (amended): with reuse disabled, the no-`Set-Cookie` login
completes with an empty cookie header; with reuse enabled it raises. -/
theorem claim10_witness :
    login tEx netNoCookie none =
      ([loginPostReq tEx],
       .ok ({ tEx with axios := axiosCreate "https://school.example" "" }, none)) ∧
    (login tRe netNoCookie none).2 =
      .error (.typeError "The data argument must be of type string") :=
  ⟨claim10_no_setcookie.1 tEx netNoCookie none 200 "" rfl rfl rfl,
    claim10_no_setcookie.2 tRe netNoCookie none 200 "" rfl rfl rfl rfl⟩

/-- Witness for C9 at the concrete query `al`. -/
theorem claim9_witness :
    (userLookup tEx netOK (some "al")).1 = [userLookupReq tEx "al"] ∧
    (userLookupReq tEx "al").url = "iserv/addressbook/lookup?query=warnke" ∧
    (userLookupReq tEx "al").params = [("query", "al")] ∧
    buildURL (userLookupReq tEx "al").url (userLookupReq tEx "al").params =
      "iserv/addressbook/lookup?query=warnke&query=" ++ axiosEncode "al" :=
  claim9_userLookup tEx netOK "al" rfl

end IServ


